import Mathlib

/-!
Verification development for the GPU blit/copy/clear emulation engine
(`rx::BlitGL`, `src/src/tests/deqp_support/tcuANGLEPlatform.h`, second
embedded document: BlitGL.cpp).

The engine is embedded shallowly: every public operation is a pure function
from its inputs, an environment record of device/collaborator facts, and the
engine's own scratch-resource state to the new state plus the list of device
commands the operation issues, in order.  Device-reported values that the real
code queries at run time (framebuffer completeness, the GL standard, the
maximum vertex-attribute count, format translations) are parameters.
Machine floats in texture-coordinate arithmetic are modelled by `Rat`.
-/

namespace BlitGL

/-! ## GL enumeration constants (values from the GL headers) -/

def GL_TEXTURE_2D : Nat := 0x0DE1
def GL_TEXTURE_3D : Nat := 0x806F
def GL_TEXTURE_2D_ARRAY : Nat := 0x8C1A
def GL_TEXTURE_CUBE_MAP : Nat := 0x8513
def GL_FRAMEBUFFER : Nat := 0x8D40
def GL_READ_FRAMEBUFFER : Nat := 0x8CA8
def GL_DRAW_FRAMEBUFFER : Nat := 0x8CA9
def GL_COLOR_ATTACHMENT0 : Nat := 0x8CE0
def GL_DEPTH_ATTACHMENT : Nat := 0x8D00
def GL_STENCIL_ATTACHMENT : Nat := 0x8D20
def GL_COLOR_BUFFER_BIT : Nat := 0x4000
def GL_DEPTH_BUFFER_BIT : Nat := 0x0100
def GL_STENCIL_BUFFER_BIT : Nat := 0x0400
def GL_UNSIGNED_INT : Nat := 0x1405
def GL_INT : Nat := 0x1404
def GL_FLOAT : Nat := 0x1406
def GL_UNSIGNED_NORMALIZED : Nat := 0x8C17
def GL_ALPHA : Nat := 0x1906
def GL_LUMINANCE : Nat := 0x1909
def GL_LUMINANCE_ALPHA : Nat := 0x190A
def GL_RED : Nat := 0x1903
def GL_GREEN : Nat := 0x1904
def GL_ZERO : Nat := 0
def GL_ONE : Nat := 1
def GL_NEAREST : Nat := 0x2600
def GL_RGBA : Nat := 0x1908
def GL_UNSIGNED_BYTE : Nat := 0x1401
def GL_CLAMP_TO_EDGE : Nat := 0x812F
def GL_TRIANGLES : Nat := 0x0004
def GL_TEXTURE_SWIZZLE_RGBA : Nat := 0x8E46
def GL_TEXTURE_MIN_FILTER : Nat := 0x2801
def GL_TEXTURE_MAG_FILTER : Nat := 0x2800
def GL_TEXTURE_WRAP_S : Nat := 0x2802
def GL_TEXTURE_WRAP_T : Nat := 0x2803
def GL_VERTEX_SHADER : Nat := 0x8B31
def GL_FRAGMENT_SHADER : Nat := 0x8B30

/-! ## Geometry -/

/-- gl::Rectangle: signed origin and extents; negative width/height encode a
reversed (right-to-left / top-to-bottom) rectangle. -/
structure Rectangle where
  x : Int
  y : Int
  width : Int
  height : Int
deriving DecidableEq

/-- gl::Offset. -/
structure Offset where
  x : Int
  y : Int
  z : Int
deriving DecidableEq

/-- Modelled from the spec: gl::Rectangle::isReversedX (ANGLE common code, not
under src/) — a rectangle is reversed on X when its width is negative. -/
def Rectangle.isReversedX (r : Rectangle) : Bool := r.width < 0

/-- Modelled from the spec: gl::Rectangle::isReversedY (ANGLE common code, not
under src/) — a rectangle is reversed on Y when its height is negative. -/
def Rectangle.isReversedY (r : Rectangle) : Bool := r.height < 0

/-- Modelled from the spec: gl::Rectangle::removeReversal (ANGLE common code,
not under src/) — "normalizes both rectangles to non-reversed form": each
reversed axis is flipped to cover the same span with a positive extent. -/
def Rectangle.removeReversal (r : Rectangle) : Rectangle :=
  { x := if r.width < 0 then r.x + r.width else r.x
    y := if r.height < 0 then r.y + r.height else r.y
    width := if r.width < 0 then -r.width else r.width
    height := if r.height < 0 then -r.height else r.height }

/-- Modelled from the spec: gl::ClipRectangle (ANGLE common code, not under
src/) — "clips the normalized source rectangle against the source's actual
extents (an empty intersection is a legal no-op)": returns the intersection of
the two rectangles, or `none` when the intersection is empty. -/
def ClipRectangle (source clip : Rectangle) : Option Rectangle :=
  let minSourceX := min source.x (source.x + source.width)
  let maxSourceX := max source.x (source.x + source.width)
  let minSourceY := min source.y (source.y + source.height)
  let maxSourceY := max source.y (source.y + source.height)
  let minClipX := min clip.x (clip.x + clip.width)
  let maxClipX := max clip.x (clip.x + clip.width)
  let minClipY := min clip.y (clip.y + clip.height)
  let maxClipY := max clip.y (clip.y + clip.height)
  if minClipX ≥ maxSourceX ∨ maxClipX ≤ minSourceX ∨ minClipY ≥ maxSourceY ∨ maxClipY ≤ minSourceY then
    none
  else
    some { x := max minSourceX minClipX
           y := max minSourceY minClipY
           width := min maxSourceX maxClipX - max minSourceX minClipX
           height := min maxSourceY maxClipY - max minSourceY minClipY }

/-! ## Blit variants (BlitGL::BlitProgramType) -/

inductive BlitProgramType where
  | FLOAT_TO_FLOAT
  | FLOAT_TO_UINT
  | UINT_TO_UINT
deriving DecidableEq

/-- BlitGL::getBlitProgramType (source lines 957–979): selects the blit
variant from the source and destination component types. -/
def getBlitProgramType (sourceComponentType destComponentType : Nat) : BlitProgramType :=
  if sourceComponentType = GL_UNSIGNED_INT then
    BlitProgramType.UINT_TO_UINT
  else
    if destComponentType = GL_UNSIGNED_INT then
      BlitProgramType.FLOAT_TO_UINT
    else
      BlitProgramType.FLOAT_TO_FLOAT

/-- A component type counts as a float type for blit-variant selection when it
is neither of the two integer component types. -/
def isFloatComponentType (t : Nat) : Prop := t ≠ GL_UNSIGNED_INT ∧ t ≠ GL_INT

instance (t : Nat) : Decidable (isFloatComponentType t) := by
  unfold isFloatComponentType; infer_instance

/-! ## Device commands

One constructor per GL entry point / state-manager setter the engine calls.
An operation's behaviour is its ordered list of emitted commands. -/

inductive Cmd where
  | genTexture (id : Nat)
  | genFramebuffer (id : Nat)
  | genBuffer (id : Nat)
  | genVertexArray (id : Nat)
  | bindTexture (textureType : Nat) (id : Nat)
  | bindFramebuffer (target : Nat) (id : Nat)
  | bindBuffer (id : Nat)
  | bindVertexArray (id : Nat)
  | bindSampler (unit : Nat) (id : Nat)
  | bufferData (byteSize : Nat)
  | enableVertexAttribArray (index : Nat)
  | vertexAttribPointer (index : Nat)
  | activeTexture (unit : Nat)
  | texImage2D (target : Nat) (level : Int) (internalFormat : Nat) (width height : Int)
      (format ty : Nat)
  | copyTexImage2D (level : Int) (internalFormat : Nat) (x y width height : Int)
  | copyTexSubImage2D (target : Nat) (level : Int) (xoffset yoffset x y width height : Int)
  | copyTexSubImage3D (target : Nat) (level : Int) (xoffset yoffset zoffset x y width height : Int)
  | texParameteri (param value : Nat)
  | texParameteriv (param : Nat) (values : List Nat)
  | setSwizzle (texture : Nat) (values : List Nat)
  | setMinFilter (texture : Nat) (value : Nat)
  | setMagFilter (texture : Nat) (value : Nat)
  | setBaseLevel (texture : Nat) (level : Nat)
  | framebufferTexture2D (target attachment textarget : Nat) (texture : Nat) (level : Int)
  | framebufferTexture (target attachment : Nat) (texture : Nat) (level : Int)
  | framebufferTextureLayer (target attachment : Nat) (texture : Nat) (level layer : Int)
  | framebufferRenderbuffer (target attachment : Nat) (renderbuffer : Nat)
  | checkFramebufferStatus (target : Nat)
  | createProgram (id : Nat)
  | compileAndAttachShader (shaderType : Nat) (src : String)
  | linkProgram (id : Nat)
  | getUniformLocation (program : Nat) (uniformName : String)
  | useProgram (id : Nat)
  | uniform1i (location : Nat) (value : Int)
  | uniform2f (location : Nat) (vx vy : Rat)
  | drawArrays (mode : Nat) (first count : Nat)
  | clear (mask : Nat)
  | setScissorTestEnabled (enabled : Bool)
  | setViewport (viewport : Rectangle)
  | setDepthRange (near far : Rat)
  | setBlendEnabled (enabled : Bool)
  | setColorMask (r g b a : Bool)
  | setSampleAlphaToCoverageEnabled (enabled : Bool)
  | setSampleCoverageEnabled (enabled : Bool)
  | setDepthTestEnabled (enabled : Bool)
  | setStencilTestEnabled (enabled : Bool)
  | setCullFaceEnabled (enabled : Bool)
  | setPolygonOffsetFillEnabled (enabled : Bool)
  | setRasterizerDiscardEnabled (enabled : Bool)
  | pauseTransformFeedback
  | pauseAllQueries
  | resumeAllQueries
  | setClearColor
  | setDepthMask (enabled : Bool)
  | setClearDepth (depth : Rat)
  | setClearStencil (value : Int)
  | setPixelUnpackState
  | setPixelUnpackBuffer (id : Nat)

/-! ## Environment and engine state -/

/-- Which GL flavour the FunctionsGL table was loaded for. -/
inductive Standard where
  | desktop
  | es
deriving DecidableEq

/-- Device / collaborator facts the engine queries at run time, plus the
external format-translation helpers it calls (treated as opaque collaborator
functions per §6 of the spec). -/
structure BlitEnv where
  standard : Standard
  maxVertexAttribs : Nat
  /-- whether mFunctions->bindSampler is non-null -/
  hasBindSampler : Bool
  /-- whether mFunctions->framebufferTexture is non-null -/
  hasFramebufferTexture : Bool
  /-- gl::GetUnsizedFormat -/
  unsizedFormat : Nat → Nat
  /-- nativegl::GetCopyTexImageImageFormat(readFormat, readType).internalFormat -/
  copyTexImageInternalFormat : Nat → Nat → Nat
  /-- the context's currently bound pixel-unpack buffer -/
  contextPixelUnpackBuffer : Nat

/-- Cached compiled blit program: device handle plus the five uniform
locations (BlitGL::BlitProgram). -/
structure BlitProgram where
  program : Nat
  sourceTextureLocation : Nat
  scaleLocation : Nat
  offsetLocation : Nat
  multiplyAlphaLocation : Nat
  unMultiplyAlphaLocation : Nat
deriving DecidableEq

/-- The engine's owned scratch state: two scratch textures, scratch
framebuffer, vertex buffer, vertex array (0 = unallocated sentinel), the
program cache (one optional entry per variant), and a counter modelling the
driver's fresh-handle source. -/
structure BlitGLState where
  scratchTexture0 : Nat
  scratchTexture1 : Nat
  scratchFBO : Nat
  vertexBuffer : Nat
  vao : Nat
  programFF : Option BlitProgram
  programFU : Option BlitProgram
  programUU : Option BlitProgram
  nextId : Nat
deriving DecidableEq

/-- Look up the cached program for a variant. -/
def BlitGLState.cachedProgram (s : BlitGLState) : BlitProgramType → Option BlitProgram
  | BlitProgramType.FLOAT_TO_FLOAT => s.programFF
  | BlitProgramType.FLOAT_TO_UINT => s.programFU
  | BlitProgramType.UINT_TO_UINT => s.programUU

/-- Store a compiled program for a variant. -/
def BlitGLState.storeProgram (s : BlitGLState) (t : BlitProgramType) (p : BlitProgram) :
    BlitGLState :=
  match t with
  | BlitProgramType.FLOAT_TO_FLOAT => { s with programFF := some p }
  | BlitProgramType.FLOAT_TO_UINT => { s with programFU := some p }
  | BlitProgramType.UINT_TO_UINT => { s with programUU := some p }

/-! ## Shader synthesis (BlitGL::getBlitProgram, source lines 988–1156)

The generated GLSL is modelled as the list of the string pieces streamed into
the ostringstream, in order; the full source is their concatenation. -/

/-- Shading-language version selected for a variant (lines 996–1022). -/
def versionString (env : BlitEnv) (t : BlitProgramType) : String :=
  if t = BlitProgramType.FLOAT_TO_FLOAT then "100"
  else if env.standard = Standard.desktop then "330" else "300 es"

def vsInputVariableQualifier (t : BlitProgramType) : String :=
  if t = BlitProgramType.FLOAT_TO_FLOAT then "attribute" else "in"

def vsOutputVariableQualifier (t : BlitProgramType) : String :=
  if t = BlitProgramType.FLOAT_TO_FLOAT then "varying" else "out"

def fsInputVariableQualifier (t : BlitProgramType) : String :=
  if t = BlitProgramType.FLOAT_TO_FLOAT then "varying" else "in"

def fsOutputVariableQualifier (t : BlitProgramType) : String :=
  if t = BlitProgramType.FLOAT_TO_FLOAT then "" else "out"

def sampleFunction (t : BlitProgramType) : String :=
  if t = BlitProgramType.FLOAT_TO_FLOAT then "texture2D" else "texture"

/-- Sampler uniform type (lines 1055–1071). -/
def samplerType (t : BlitProgramType) : String :=
  match t with
  | BlitProgramType.FLOAT_TO_FLOAT => "sampler2D"
  | BlitProgramType.FLOAT_TO_UINT => "sampler2D"
  | BlitProgramType.UINT_TO_UINT => "usampler2D"

def samplerResultType (t : BlitProgramType) : String :=
  match t with
  | BlitProgramType.FLOAT_TO_FLOAT => "vec4"
  | BlitProgramType.FLOAT_TO_UINT => "vec4"
  | BlitProgramType.UINT_TO_UINT => "uvec4"

/-- Output declaration pieces (lines 1073–1095). -/
def outputType (t : BlitProgramType) : String :=
  match t with
  | BlitProgramType.FLOAT_TO_FLOAT => ""
  | BlitProgramType.FLOAT_TO_UINT => "uvec4"
  | BlitProgramType.UINT_TO_UINT => "uvec4"

def outputVariableName (t : BlitProgramType) : String :=
  match t with
  | BlitProgramType.FLOAT_TO_FLOAT => "gl_FragColor"
  | BlitProgramType.FLOAT_TO_UINT => "outputUint"
  | BlitProgramType.UINT_TO_UINT => "outputUint"

def outputMultiplier (t : BlitProgramType) : String :=
  match t with
  | BlitProgramType.FLOAT_TO_FLOAT => "1.0"
  | BlitProgramType.FLOAT_TO_UINT => "255.0"
  | BlitProgramType.UINT_TO_UINT => "255.0"

/-- Vertex-shader source pieces (lines 1026–1037). -/
def vsSourceChunks (env : BlitEnv) (t : BlitProgramType) : List String :=
  ["#version " ++ versionString env t ++ "\n",
   vsInputVariableQualifier t ++ " vec2 a_texcoord;\n",
   "uniform vec2 u_scale;\n",
   "uniform vec2 u_offset;\n",
   vsOutputVariableQualifier t ++ " vec2 v_texcoord;\n",
   "\n",
   "void main()\n",
   "\x7b\n",
   "    gl_Position = vec4((a_texcoord * 2.0) - 1.0, 0.0, 1.0);\n",
   "    v_texcoord = a_texcoord * u_scale + u_offset;\n",
   "\x7d\n"]

def vsSource (env : BlitEnv) (t : BlitProgramType) : String :=
  String.join (vsSourceChunks env t)

/-- The four fragment-shader lines performing the guarded unmultiply-alpha
division (source lines 1134–1137): the division of RGB by alpha is executed
only when `u_unmultiply_alpha` is set AND the sampled alpha is not zero. -/
def unmultiplyGuardChunk : List String :=
  ["    if (u_unmultiply_alpha && color.a != 0.0)\n",
   "    \x7b\n",
   "         color.xyz = color.xyz / color.a;\n",
   "    \x7d\n"]

/-- Fragment-shader pieces emitted before the unmultiply guard (lines
1098–1133): header/uniform/varying/output declarations, the out-of-bounds
discard, the sampling statement and the multiply branch. -/
def fsChunksBeforeUnmultiply (env : BlitEnv) (t : BlitProgramType) : List String :=
  ["#version " ++ versionString env t ++ "\n",
   "precision highp float;\n",
   "uniform " ++ samplerType t ++ " u_source_texture;\n",
   "uniform bool u_multiply_alpha;\n",
   "uniform bool u_unmultiply_alpha;\n",
   fsInputVariableQualifier t ++ " vec2 v_texcoord;\n"]
  ++ (if outputType t = "" then []
      else [fsOutputVariableQualifier t ++ " " ++ outputType t ++ " " ++
            outputVariableName t ++ ";\n"])
  ++ ["\n",
      "void main()\n",
      "\x7b\n",
      "    if (clamp(v_texcoord, vec2(0.0), vec2(1.0)) != v_texcoord)\n",
      "    \x7b\n",
      "        discard;\n",
      "    \x7d\n",
      "    " ++ samplerResultType t ++ " color = " ++ sampleFunction t ++
        "(u_source_texture, v_texcoord);\n",
      "    if (u_multiply_alpha)\n",
      "    \x7b\n",
      "        color.xyz = color.xyz * color.a;\n",
      "    \x7d\n"]

/-- Fragment-shader pieces emitted after the unmultiply guard (lines
1139–1144): output scaling, the cast/assignment to the output variable, and
the closing brace. -/
def fsChunksAfterUnmultiply (t : BlitProgramType) : List String :=
  ["    color = color * " ++ outputMultiplier t ++ ";\n",
   "    " ++ outputVariableName t ++ " = " ++ outputType t ++ "(color);\n",
   "\x7d\n"]

/-- Fragment-shader source pieces (lines 1098–1144), in emission order. -/
def fsSourceChunks (env : BlitEnv) (t : BlitProgramType) : List String :=
  fsChunksBeforeUnmultiply env t ++ unmultiplyGuardChunk ++ fsChunksAfterUnmultiply t

def fsSource (env : BlitEnv) (t : BlitProgramType) : String :=
  String.join (fsSourceChunks env t)

/-- BlitGL::getBlitProgram (lines 981–1173): cache hit returns the stored
program with no commands; a miss creates, compiles and links the program for
the variant and records the five uniform locations (modelled as the fixed
slots 0–4 handed back by the driver). -/
def getBlitProgram (env : BlitEnv) (t : BlitProgramType) (s : BlitGLState) :
    BlitGLState × List Cmd × BlitProgram :=
  match s.cachedProgram t with
  | some p => (s, [], p)
  | none =>
    let progId := s.nextId
    let p : BlitProgram :=
      { program := progId, sourceTextureLocation := 0, scaleLocation := 1,
        offsetLocation := 2, multiplyAlphaLocation := 3, unMultiplyAlphaLocation := 4 }
    let cmds : List Cmd :=
      [Cmd.createProgram progId,
       Cmd.compileAndAttachShader GL_VERTEX_SHADER (vsSource env t),
       Cmd.compileAndAttachShader GL_FRAGMENT_SHADER (fsSource env t),
       Cmd.linkProgram progId,
       Cmd.getUniformLocation progId "u_source_texture",
       Cmd.getUniformLocation progId "u_scale",
       Cmd.getUniformLocation progId "u_offset",
       Cmd.getUniformLocation progId "u_multiply_alpha",
       Cmd.getUniformLocation progId "u_unmultiply_alpha"]
    ({ s.storeProgram t p with nextId := s.nextId + 1 }, cmds, p)

/-! ## Lazy scratch-resource initialization (BlitGL::initializeResources,
lines 883–932) -/

/-- The attribute-enabling loop (lines 924–928): enables every vertex
attribute slot 0 .. n-1 against the single scratch buffer, ascending. -/
def attribSetupCmds : Nat → List Cmd
  | 0 => []
  | n + 1 => attribSetupCmds n ++ [Cmd.enableVertexAttribArray n, Cmd.vertexAttribPointer n]

/-- BlitGL::initializeResources: allocates exactly the scratch objects whose
handle is still the 0 sentinel; idempotent once everything exists. -/
def initializeResources (env : BlitEnv) (s0 : BlitGLState) : BlitGLState × List Cmd :=
  let p0 :=
    if s0.scratchTexture0 = 0 then
      (({ s0 with scratchTexture0 := s0.nextId, nextId := s0.nextId + 1 } : BlitGLState),
       [Cmd.genTexture s0.nextId])
    else (s0, [])
  let s1 := p0.1
  let p1 :=
    if s1.scratchTexture1 = 0 then
      (({ s1 with scratchTexture1 := s1.nextId, nextId := s1.nextId + 1 } : BlitGLState),
       [Cmd.genTexture s1.nextId])
    else (s1, [])
  let s2 := p1.1
  let p2 :=
    if s2.scratchFBO = 0 then
      (({ s2 with scratchFBO := s2.nextId, nextId := s2.nextId + 1 } : BlitGLState),
       [Cmd.genFramebuffer s2.nextId])
    else (s2, [])
  let s3 := p2.1
  let p3 :=
    if s3.vertexBuffer = 0 then
      (({ s3 with vertexBuffer := s3.nextId, nextId := s3.nextId + 1 } : BlitGLState),
       [Cmd.genBuffer s3.nextId, Cmd.bindBuffer s3.nextId, Cmd.bufferData 24])
    else (s3, [])
  let s4 := p3.1
  let p4 :=
    if s4.vao = 0 then
      (({ s4 with vao := s4.nextId, nextId := s4.nextId + 1 } : BlitGLState),
       [Cmd.genVertexArray s4.nextId, Cmd.bindVertexArray s4.nextId,
        Cmd.bindBuffer s4.vertexBuffer] ++ attribSetupCmds env.maxVertexAttribs)
    else (s4, [])
  (p4.1, p0.2 ++ p1.2 ++ p2.2 ++ p3.2 ++ p4.2)

/-! ## Scoped device-state guard (ScopedGLState, lines 128–179) -/

/-- Commands issued by the ScopedGLState constructor: forces the neutral
render state, pauses transform feedback and all queries; the scissor setting
is preserved when KEEP_SCISSOR is passed. -/
def scopedGLStateOpen (viewport : Rectangle) (keepScissor : Bool) : List Cmd :=
  (if keepScissor then [] else [Cmd.setScissorTestEnabled false]) ++
  [Cmd.setViewport viewport,
   Cmd.setDepthRange 0 1,
   Cmd.setBlendEnabled false,
   Cmd.setColorMask true true true true,
   Cmd.setSampleAlphaToCoverageEnabled false,
   Cmd.setSampleCoverageEnabled false,
   Cmd.setDepthTestEnabled false,
   Cmd.setStencilTestEnabled false,
   Cmd.setCullFaceEnabled false,
   Cmd.setPolygonOffsetFillEnabled false,
   Cmd.setRasterizerDiscardEnabled false,
   Cmd.pauseTransformFeedback,
   Cmd.pauseAllQueries]

/-- Commands issued by the ScopedGLState destructor (lines 162–166): only the
paused queries are resumed. -/
def scopedGLStateClose : List Cmd := [Cmd.resumeAllQueries]

/-- ScopedGLState::willUseTextureUnit: unbinds any sampler object on the unit
when the device exposes bindSampler. -/
def willUseTextureUnit (env : BlitEnv) (unit : Nat) : List Cmd :=
  if env.hasBindSampler then [Cmd.bindSampler unit 0] else []

/-! ## Device-state interpretation of the state-manager commands -/

/-- The slice of device state touched by the guard, plus the state manager's
memory of which queries it paused. -/
structure DeviceState where
  scissorTestEnabled : Bool
  viewport : Rectangle
  depthRange : Rat × Rat
  blendEnabled : Bool
  colorMask : Bool × Bool × Bool × Bool
  sampleAlphaToCoverageEnabled : Bool
  sampleCoverageEnabled : Bool
  depthTestEnabled : Bool
  stencilTestEnabled : Bool
  cullFaceEnabled : Bool
  polygonOffsetFillEnabled : Bool
  rasterizerDiscardEnabled : Bool
  transformFeedbackPaused : Bool
  /-- whether the caller's queries are currently running -/
  queriesActive : Bool
  /-- the state manager's record of queries it paused and may resume -/
  pausedQueries : Bool
deriving DecidableEq

/-- Effect of one command on the tracked device state; commands that do not
touch this slice leave it unchanged. -/
def applyCmd (s : DeviceState) : Cmd → DeviceState
  | Cmd.setScissorTestEnabled b => { s with scissorTestEnabled := b }
  | Cmd.setViewport v => { s with viewport := v }
  | Cmd.setDepthRange n f => { s with depthRange := (n, f) }
  | Cmd.setBlendEnabled b => { s with blendEnabled := b }
  | Cmd.setColorMask r g b a => { s with colorMask := (r, g, b, a) }
  | Cmd.setSampleAlphaToCoverageEnabled b => { s with sampleAlphaToCoverageEnabled := b }
  | Cmd.setSampleCoverageEnabled b => { s with sampleCoverageEnabled := b }
  | Cmd.setDepthTestEnabled b => { s with depthTestEnabled := b }
  | Cmd.setStencilTestEnabled b => { s with stencilTestEnabled := b }
  | Cmd.setCullFaceEnabled b => { s with cullFaceEnabled := b }
  | Cmd.setPolygonOffsetFillEnabled b => { s with polygonOffsetFillEnabled := b }
  | Cmd.setRasterizerDiscardEnabled b => { s with rasterizerDiscardEnabled := b }
  | Cmd.pauseTransformFeedback => { s with transformFeedbackPaused := true }
  | Cmd.pauseAllQueries => { s with pausedQueries := s.queriesActive, queriesActive := false }
  | Cmd.resumeAllQueries => { s with queriesActive := s.pausedQueries, pausedQueries := false }
  | _ => s

/-- Run a command list over the device state, in order. -/
def runCmds (s : DeviceState) (cs : List Cmd) : DeviceState := cs.foldl applyCmd s

/-! ## Small helpers shared by the operations -/

/-- BlitGL::setScratchTextureParameter (lines 947–955): sets the parameter on
both scratch textures (the source performs the texParameteri call twice per
texture). -/
def setScratchTextureParameterCmds (s : BlitGLState) (param value : Nat) : List Cmd :=
  [Cmd.bindTexture GL_TEXTURE_2D s.scratchTexture0,
   Cmd.texParameteri param value, Cmd.texParameteri param value,
   Cmd.bindTexture GL_TEXTURE_2D s.scratchTexture1,
   Cmd.texParameteri param value, Cmd.texParameteri param value]

/-- BlitGL::orphanScratchTextures (lines 934–945): reallocates both scratch
textures at zero size so the driver may reclaim their memory. -/
def orphanScratchTexturesCmds (s : BlitGLState) : List Cmd :=
  [Cmd.bindTexture GL_TEXTURE_2D s.scratchTexture0,
   Cmd.setPixelUnpackState, Cmd.setPixelUnpackBuffer 0,
   Cmd.texImage2D GL_TEXTURE_2D 0 GL_RGBA 0 0 GL_RGBA GL_UNSIGNED_BYTE,
   Cmd.bindTexture GL_TEXTURE_2D s.scratchTexture1,
   Cmd.setPixelUnpackState, Cmd.setPixelUnpackBuffer 0,
   Cmd.texImage2D GL_TEXTURE_2D 0 GL_RGBA 0 0 GL_RGBA GL_UNSIGNED_BYTE]

/-- UnbindAttachments (lines 243–251). -/
def unbindAttachmentsCmds (bindTargets : List Nat) : List Cmd :=
  bindTargets.map (fun bt => Cmd.framebufferRenderbuffer GL_FRAMEBUFFER bt 0)

/-! ## Clear preparation (SetClearState lines 181–209, PrepareForClear
lines 213–241) -/

/-- The two fields of gl::InternalFormat that PrepareForClear reads from
GetSizedInternalFormatInfo's result (the format tables are an external
collaborator; the looked-up channel counts are passed in directly). -/
structure InternalFormatInfo where
  depthBits : Nat
  stencilBits : Nat
deriving DecidableEq

/-- SetClearState: emits the clear-value/mask state for each requested buffer
kind and accumulates the clear bitmask; always disables the scissor test. -/
def SetClearState (colorClear depthClear stencilClear : Bool) : List Cmd × Nat :=
  let pc :=
    if colorClear then
      ([Cmd.setClearColor, Cmd.setColorMask true true true true], GL_COLOR_BUFFER_BIT)
    else ([], 0)
  let pd :=
    if depthClear then
      ([Cmd.setDepthMask true, Cmd.setClearDepth 1], GL_DEPTH_BUFFER_BIT)
    else ([], 0)
  let ps :=
    if stencilClear then ([Cmd.setClearStencil 0], GL_STENCIL_BUFFER_BIT)
    else ([], 0)
  (pc.1 ++ pd.1 ++ ps.1 ++ [Cmd.setScissorTestEnabled false],
   pc.2 ||| pd.2 ||| ps.2)

/-- PrepareForClear: derives the attachment points to bind and the clear mask
from the format's channel composition — depth when depthBits > 0, stencil
when stencilBits > 0, color exactly when neither. -/
def PrepareForClear (info : InternalFormatInfo) : List Nat × Nat × List Cmd :=
  let bindDepth := decide (info.depthBits > 0)
  let bindStencil := decide (info.stencilBits > 0)
  let bindColor := !bindDepth && !bindStencil
  let bindTargets :=
    (if bindColor then [GL_COLOR_ATTACHMENT0] else []) ++
    (if bindDepth then [GL_DEPTH_ATTACHMENT] else []) ++
    (if bindStencil then [GL_STENCIL_ATTACHMENT] else [])
  let sc := SetClearState bindColor bindDepth bindStencil
  (bindTargets, sc.2, sc.1)

/-! ## clearRenderableTexture (lines 749–842) -/

/-- gl::ImageIndex as consumed by clearRenderableTexture: the target
enumeration, the mip level, and the optional caller-specified layer range
(first layer, layer count); hasLayer() is the range being present. -/
structure ImageIndex where
  targetEnum : Nat
  levelIndex : Int
  layerRange : Option (Int × Int)
deriving DecidableEq

/-- Modelled from the spec: nativegl::UseTexImage2D (ANGLE renderer helper,
not under src/) — 2D-class targets (2D, cube map) attach directly; 3D/array
targets take the 3D path. -/
def useTexImage2DType (textureType : Nat) : Bool :=
  textureType = GL_TEXTURE_2D ∨ textureType = GL_TEXTURE_CUBE_MAP

/-- The per-layer loop of clearRenderableTexture (lines 817–836): for each of
the remaining layers (fuel), attach layer `current` to every bind target,
check completeness through the oracle, clear and continue on complete, or
unbind and stop with the negative result on the first incomplete layer. -/
def clearLayersLoop (texId : Nat) (level : Int) (bindTargets : List Nat) (clearMask : Nat)
    (layerComplete : Int → Bool) (current : Int) : Nat → List Cmd × Bool
  | 0 => ([], true)
  | Nat.succ n =>
    let attach := bindTargets.map
      (fun bt => Cmd.framebufferTextureLayer GL_FRAMEBUFFER bt texId level current)
    if layerComplete current then
      let rest := clearLayersLoop texId level bindTargets clearMask layerComplete (current + 1) n
      (attach ++ [Cmd.checkFramebufferStatus GL_FRAMEBUFFER, Cmd.clear clearMask] ++ rest.1,
       rest.2)
    else
      (attach ++ [Cmd.checkFramebufferStatus GL_FRAMEBUFFER] ++ unbindAttachmentsCmds bindTargets,
       false)

/-- BlitGL::clearRenderableTexture.  `layerComplete` is the device's
completeness answer as a function of the attached layer; `wholeComplete` is
its answer for the whole-level attachment paths.  Returns the new engine
state, the commands issued, and the success / negative-result outcome. -/
def clearRenderableTexture (env : BlitEnv) (sourceTextureID sourceTextureType : Nat)
    (formatInfo : InternalFormatInfo) (numTextureLayers : Int) (imageIndex : ImageIndex)
    (layerComplete : Int → Bool) (wholeComplete : Bool) (s0 : BlitGLState) :
    BlitGLState × List Cmd × Bool :=
  let ini := initializeResources env s0
  let s1 := ini.1
  let prep := PrepareForClear formatInfo
  let bindTargets := prep.1
  let clearMask := prep.2.1
  let base := ini.2 ++ prep.2.2 ++ [Cmd.bindFramebuffer GL_FRAMEBUFFER s1.scratchFBO]
  if useTexImage2DType sourceTextureType then
    let attach := bindTargets.map
      (fun bt => Cmd.framebufferTexture2D GL_FRAMEBUFFER bt imageIndex.targetEnum
        sourceTextureID imageIndex.levelIndex)
    if wholeComplete then
      (s1, base ++ attach ++ [Cmd.checkFramebufferStatus GL_FRAMEBUFFER, Cmd.clear clearMask]
        ++ unbindAttachmentsCmds bindTargets, true)
    else
      (s1, base ++ attach ++ [Cmd.checkFramebufferStatus GL_FRAMEBUFFER]
        ++ unbindAttachmentsCmds bindTargets, false)
  else
    if env.hasFramebufferTexture && !imageIndex.layerRange.isSome then
      let attach := bindTargets.map
        (fun bt => Cmd.framebufferTexture GL_FRAMEBUFFER bt sourceTextureID
          imageIndex.levelIndex)
      if wholeComplete then
        (s1, base ++ attach ++ [Cmd.checkFramebufferStatus GL_FRAMEBUFFER, Cmd.clear clearMask]
          ++ unbindAttachmentsCmds bindTargets, true)
      else
        (s1, base ++ attach ++ [Cmd.checkFramebufferStatus GL_FRAMEBUFFER]
          ++ unbindAttachmentsCmds bindTargets, false)
    else
      let range :=
        match imageIndex.layerRange with
        | some r => r
        | none => (0, numTextureLayers)
      let loop := clearLayersLoop sourceTextureID imageIndex.levelIndex bindTargets clearMask
        layerComplete range.1 range.2.toNat
      if loop.2 then
        (s1, base ++ loop.1 ++ unbindAttachmentsCmds bindTargets, true)
      else
        (s1, base ++ loop.1, false)

/-! ## blitColorBufferWithShader (lines 426–533) -/

/-- The facts blitColorBufferWithShader reads from a gl::Framebuffer through
its accessors: native handle, read-attachment size and format, and (for the
LUMA copies) the implementation color-read format/type. -/
structure FramebufferInfo where
  framebufferID : Nat
  sizeW : Int
  sizeH : Int
  internalFormat : Nat
  implReadFormat : Nat
  implReadType : Nat
deriving DecidableEq

/-- Body of blitColorBufferWithShader after the reversal flags have been
computed and the two rectangles normalized (lines 445–532).  Clipping the
normalized source rectangle against the read attachment's bounds either
empties — the early successful no-op return of line 457 — or yields the
in-bounds region that is copied to scratch texture 0 and sampled with the
scale/offset computed in texture-coordinate space, negated/shifted per
reversal flag, drawn under the guard with the destination rectangle as the
viewport and scissor preserved. -/
def blitColorBufferWithShaderCore (env : BlitEnv) (source dest : FramebufferInfo)
    (reverseX reverseY : Bool) (sourceArea destArea : Rectangle) (filter : Nat)
    (s0 : BlitGLState) : BlitGLState × List Cmd :=
  let ini := initializeResources env s0
  let gp := getBlitProgram env BlitProgramType.FLOAT_TO_FLOAT ini.1
  let s2 := gp.1
  let blitProgram := gp.2.2
  let sourceBounds : Rectangle := { x := 0, y := 0, width := source.sizeW, height := source.sizeH }
  match ClipRectangle sourceArea sourceBounds with
  | none => (s2, ini.2 ++ gp.2.1)
  | some inBoundsSource =>
    let textureId := s2.scratchTexture0
    let copyCmds : List Cmd :=
      [Cmd.bindFramebuffer GL_READ_FRAMEBUFFER source.framebufferID,
       Cmd.bindTexture GL_TEXTURE_2D textureId,
       Cmd.copyTexImage2D 0 source.internalFormat inBoundsSource.x inBoundsSource.y
         inBoundsSource.width inBoundsSource.height]
      ++ setScratchTextureParameterCmds s2 GL_TEXTURE_MIN_FILTER filter
      ++ setScratchTextureParameterCmds s2 GL_TEXTURE_MAG_FILTER filter
      ++ setScratchTextureParameterCmds s2 GL_TEXTURE_WRAP_S GL_CLAMP_TO_EDGE
      ++ setScratchTextureParameterCmds s2 GL_TEXTURE_WRAP_T GL_CLAMP_TO_EDGE
    let localX : Int := sourceArea.x - inBoundsSource.x
    let localY : Int := sourceArea.y - inBoundsSource.y
    let texCoordOffsetX : Rat := (localX : Rat) / (inBoundsSource.width : Rat)
    let texCoordOffsetY : Rat := (localY : Rat) / (inBoundsSource.height : Rat)
    let texCoordScaleX : Rat := (sourceArea.width : Rat) / (inBoundsSource.width : Rat)
    let texCoordScaleY : Rat := (sourceArea.height : Rat) / (inBoundsSource.height : Rat)
    let px :=
      if reverseX then (texCoordOffsetX + texCoordScaleX, -texCoordScaleX)
      else (texCoordOffsetX, texCoordScaleX)
    let py :=
      if reverseY then (texCoordOffsetY + texCoordScaleY, -texCoordScaleY)
      else (texCoordOffsetY, texCoordScaleY)
    let drawCmds : List Cmd :=
      scopedGLStateOpen destArea true ++ willUseTextureUnit env 0 ++
      [Cmd.activeTexture 0,
       Cmd.bindTexture GL_TEXTURE_2D textureId,
       Cmd.useProgram blitProgram.program,
       Cmd.uniform1i blitProgram.sourceTextureLocation 0,
       Cmd.uniform2f blitProgram.scaleLocation px.2 py.2,
       Cmd.uniform2f blitProgram.offsetLocation px.1 py.1,
       Cmd.uniform1i blitProgram.multiplyAlphaLocation 0,
       Cmd.uniform1i blitProgram.unMultiplyAlphaLocation 0,
       Cmd.bindFramebuffer GL_DRAW_FRAMEBUFFER dest.framebufferID,
       Cmd.bindVertexArray s2.vao,
       Cmd.drawArrays GL_TRIANGLES 0 3]
    (s2, ini.2 ++ gp.2.1 ++ copyCmds ++ drawCmds ++ scopedGLStateClose)

/-- BlitGL::blitColorBufferWithShader: computes the independent X/Y reversal
flags by comparing the reversal sense of the two rectangles (lines 440–441),
normalizes both to non-reversed form (lines 442–443), and runs the body. -/
def blitColorBufferWithShader (env : BlitEnv) (source dest : FramebufferInfo)
    (sourceAreaIn destAreaIn : Rectangle) (filter : Nat) (s0 : BlitGLState) :
    BlitGLState × List Cmd :=
  blitColorBufferWithShaderCore env source dest
    (sourceAreaIn.isReversedX != destAreaIn.isReversedX)
    (sourceAreaIn.isReversedY != destAreaIn.isReversedY)
    sourceAreaIn.removeReversal destAreaIn.removeReversal filter s0

/-! ## copySubTexture (lines 535–634) -/

/-- gl::Extents (width/height slice used here). -/
structure Extents where
  width : Int
  height : Int
deriving DecidableEq

/-- BlitGL::copySubTexture.  `fbComplete` is the device's completeness answer
for the destination attachment made at the top of the function.  Returns the
new engine state, the commands issued, and the success / negative-result
outcome. -/
def copySubTexture (env : BlitEnv) (sourceTextureID : Nat) (sourceLevel : Nat)
    (sourceComponentType : Nat) (destTextureID : Nat) (destTarget : Nat) (destLevel : Nat)
    (destComponentType : Nat) (sourceSize : Extents) (sourceArea : Rectangle)
    (destOffset : Offset) (needsLumaWorkaround : Bool) (lumaFormat : Nat)
    (unpackFlipY unpackPremultiplyAlpha unpackUnmultiplyAlpha : Bool)
    (fbComplete : Bool) (s0 : BlitGLState) : BlitGLState × List Cmd × Bool :=
  let ini := initializeResources env s0
  let s1 := ini.1
  let attachCheckCmds : List Cmd :=
    [Cmd.bindFramebuffer GL_FRAMEBUFFER s1.scratchFBO,
     Cmd.framebufferTexture2D GL_FRAMEBUFFER GL_COLOR_ATTACHMENT0 destTarget destTextureID
       (destLevel : Int),
     Cmd.checkFramebufferStatus GL_FRAMEBUFFER]
  if !fbComplete then
    (s1, ini.2 ++ attachCheckCmds, false)
  else
    let gp := getBlitProgram env (getBlitProgramType sourceComponentType destComponentType) s1
    let s2 := gp.1
    let blitProgram := gp.2.2
    let lumaCmds : List Cmd :=
      if needsLumaWorkaround then
        let luminance := if lumaFormat = GL_ALPHA then GL_ZERO else GL_RED
        let alpha :=
          if lumaFormat = GL_LUMINANCE then GL_ONE
          else if lumaFormat = GL_LUMINANCE_ALPHA then GL_GREEN
          else GL_RED
        [Cmd.setSwizzle sourceTextureID [luminance, luminance, luminance, alpha]]
      else []
    let sourceStateCmds : List Cmd :=
      lumaCmds ++
      [Cmd.setMinFilter sourceTextureID GL_NEAREST,
       Cmd.setMagFilter sourceTextureID GL_NEAREST,
       Cmd.setBaseLevel sourceTextureID sourceLevel]
    let scaleX : Rat := (sourceArea.width : Rat) / (sourceSize.width : Rat)
    let scaleY : Rat := (sourceArea.height : Rat) / (sourceSize.height : Rat)
    let offsetX : Rat := (sourceArea.x : Rat) / (sourceSize.width : Rat)
    let offsetY : Rat := (sourceArea.y : Rat) / (sourceSize.height : Rat)
    let py := if unpackFlipY then (offsetY + scaleY, -scaleY) else (offsetY, scaleY)
    let alphaCmds : List Cmd :=
      if unpackPremultiplyAlpha = unpackUnmultiplyAlpha then
        [Cmd.uniform1i blitProgram.multiplyAlphaLocation 0,
         Cmd.uniform1i blitProgram.unMultiplyAlphaLocation 0]
      else
        [Cmd.uniform1i blitProgram.multiplyAlphaLocation (if unpackPremultiplyAlpha then 1 else 0),
         Cmd.uniform1i blitProgram.unMultiplyAlphaLocation (if unpackUnmultiplyAlpha then 1 else 0)]
    let drawCmds : List Cmd :=
      scopedGLStateOpen
        { x := destOffset.x, y := destOffset.y,
          width := sourceArea.width, height := sourceArea.height } false ++
      willUseTextureUnit env 0 ++
      [Cmd.activeTexture 0,
       Cmd.bindTexture GL_TEXTURE_2D sourceTextureID,
       Cmd.useProgram blitProgram.program,
       Cmd.uniform1i blitProgram.sourceTextureLocation 0,
       Cmd.uniform2f blitProgram.scaleLocation scaleX py.2,
       Cmd.uniform2f blitProgram.offsetLocation offsetX py.1] ++
      alphaCmds ++
      [Cmd.bindVertexArray s2.vao,
       Cmd.drawArrays GL_TRIANGLES 0 3] ++
      scopedGLStateClose
    (s2, ini.2 ++ attachCheckCmds ++ gp.2.1 ++ sourceStateCmds ++ drawCmds, true)

/-! ## LUMA-workaround copies (lines 304–424) -/

/-- BlitGL::copySubImageToLUMAWorkaroundTexture (lines 333–424): copies the
source framebuffer region into scratch texture 0, swizzles it into the
emulated LUMA channel layout, renders the swizzled result through scratch
texture 1 and the scratch framebuffer, copies it into the destination texture
level at the destination offset, and finally orphans both scratch textures
(the guard's destructor closes after the return value is formed). -/
def copySubImageToLUMAWorkaroundTexture (env : BlitEnv) (texture : Nat)
    (textureTypeEnum : Nat) (targetEnum : Nat) (lumaFormat : Nat) (level : Nat)
    (destOffset : Offset) (sourceArea : Rectangle) (source : FramebufferInfo)
    (s0 : BlitGLState) : BlitGLState × List Cmd :=
  let ini := initializeResources env s0
  let gp := getBlitProgram env BlitProgramType.FLOAT_TO_FLOAT ini.1
  let s2 := gp.1
  let blitProgram := gp.2.2
  let copyTexImageFormat := env.copyTexImageInternalFormat source.implReadFormat source.implReadType
  let swizzle : List Nat :=
    [if lumaFormat = GL_ALPHA then GL_ALPHA else GL_RED,
     if lumaFormat = GL_LUMINANCE_ALPHA then GL_ALPHA else GL_ZERO,
     GL_ZERO, GL_ZERO]
  let stageCmds : List Cmd :=
    [Cmd.bindFramebuffer GL_FRAMEBUFFER source.framebufferID,
     Cmd.bindTexture GL_TEXTURE_2D s2.scratchTexture0,
     Cmd.copyTexImage2D 0 copyTexImageFormat sourceArea.x sourceArea.y
       sourceArea.width sourceArea.height,
     Cmd.texParameteriv GL_TEXTURE_SWIZZLE_RGBA swizzle,
     Cmd.bindTexture GL_TEXTURE_2D s2.scratchTexture1,
     Cmd.texImage2D GL_TEXTURE_2D 0 copyTexImageFormat sourceArea.width sourceArea.height
       (env.unsizedFormat copyTexImageFormat) source.implReadType,
     Cmd.bindFramebuffer GL_FRAMEBUFFER s2.scratchFBO,
     Cmd.framebufferTexture2D GL_FRAMEBUFFER GL_COLOR_ATTACHMENT0 GL_TEXTURE_2D
       s2.scratchTexture1 0]
  let drawCmds : List Cmd :=
    scopedGLStateOpen { x := 0, y := 0, width := sourceArea.width, height := sourceArea.height }
      false ++
    willUseTextureUnit env 0 ++
    setScratchTextureParameterCmds s2 GL_TEXTURE_MIN_FILTER GL_NEAREST ++
    setScratchTextureParameterCmds s2 GL_TEXTURE_MAG_FILTER GL_NEAREST ++
    [Cmd.activeTexture 0,
     Cmd.bindTexture GL_TEXTURE_2D s2.scratchTexture0,
     Cmd.useProgram blitProgram.program,
     Cmd.uniform1i blitProgram.sourceTextureLocation 0,
     Cmd.uniform2f blitProgram.scaleLocation 1 1,
     Cmd.uniform2f blitProgram.offsetLocation 0 0,
     Cmd.uniform1i blitProgram.multiplyAlphaLocation 0,
     Cmd.uniform1i blitProgram.unMultiplyAlphaLocation 0,
     Cmd.bindVertexArray s2.vao,
     Cmd.drawArrays GL_TRIANGLES 0 3]
  let copyOutCmds : List Cmd :=
    [Cmd.bindTexture textureTypeEnum texture] ++
    (if targetEnum = GL_TEXTURE_3D ∨ targetEnum = GL_TEXTURE_2D_ARRAY then
      [Cmd.copyTexSubImage3D targetEnum (level : Int) destOffset.x destOffset.y destOffset.z
        0 0 sourceArea.width sourceArea.height]
    else
      [Cmd.copyTexSubImage2D targetEnum (level : Int) destOffset.x destOffset.y
        0 0 sourceArea.width sourceArea.height])
  (s2, ini.2 ++ gp.2.1 ++ stageCmds ++ drawCmds ++ copyOutCmds ++
    orphanScratchTexturesCmds s2 ++ scopedGLStateClose)

/-- BlitGL::copyImageToLUMAWorkaroundTexture (lines 304–331): allocates the
destination level at the source-area dimensions with the framebuffer's
implementation read type, then delegates to the sub-image copy at destination
offset (0, 0, 0). -/
def copyImageToLUMAWorkaroundTexture (env : BlitEnv) (texture : Nat)
    (textureTypeEnum : Nat) (targetEnum : Nat) (lumaFormat : Nat) (level : Nat)
    (sourceArea : Rectangle) (internalFormat : Nat) (source : FramebufferInfo)
    (s0 : BlitGLState) : BlitGLState × List Cmd :=
  let allocCmds : List Cmd :=
    [Cmd.bindTexture textureTypeEnum texture,
     Cmd.setPixelUnpackState,
     Cmd.setPixelUnpackBuffer env.contextPixelUnpackBuffer,
     Cmd.texImage2D targetEnum (level : Int) internalFormat sourceArea.width sourceArea.height
       (env.unsizedFormat internalFormat) source.implReadType]
  let sub := copySubImageToLUMAWorkaroundTexture env texture textureTypeEnum targetEnum
    lumaFormat level { x := 0, y := 0, z := 0 } sourceArea source s0
  (sub.1, allocCmds ++ sub.2)

/-- Reference composition following the spec's words for the refinement claim:
first allocate the destination texture level's storage at the source-area
dimensions using the framebuffer's implementation color-read type, then
execute the sub-image LUMA copy with the same arguments and destination
offset (0, 0, 0). -/
def lumaAllocThenCopySubImage (env : BlitEnv) (texture : Nat)
    (textureTypeEnum : Nat) (targetEnum : Nat) (lumaFormat : Nat) (level : Nat)
    (sourceArea : Rectangle) (internalFormat : Nat) (source : FramebufferInfo)
    (s0 : BlitGLState) : BlitGLState × List Cmd :=
  let allocStep : List Cmd :=
    [Cmd.bindTexture textureTypeEnum texture,
     Cmd.setPixelUnpackState,
     Cmd.setPixelUnpackBuffer env.contextPixelUnpackBuffer,
     Cmd.texImage2D targetEnum (level : Int) internalFormat sourceArea.width sourceArea.height
       (env.unsizedFormat internalFormat) source.implReadType]
  let rest := copySubImageToLUMAWorkaroundTexture env texture textureTypeEnum targetEnum
    lumaFormat level { x := 0, y := 0, z := 0 } sourceArea source s0
  (rest.1, allocStep ++ rest.2)

/-! ## Fragment-shader alpha semantics

A small evaluator for the premultiply/unmultiply block the fragment shader
emits (source lines 1130–1137), over exact rationals. -/

/-- A sampled color, GLSL-style: color.xyz are the RGB channels, color.a the
alpha channel. -/
structure Color4 where
  x : Rat
  y : Rat
  z : Rat
  a : Rat
deriving DecidableEq

/-- Division that records a divide-by-zero instead of performing it. -/
def checkedDiv (a b : Rat) : Option Rat :=
  if b = 0 then none else some (a / b)

/-- The multiply branch (lines 1130–1133): when `u_multiply_alpha` is set,
RGB is scaled by alpha. -/
def multiplyStep (multiplyAlpha : Bool) (c : Color4) : Color4 :=
  if multiplyAlpha then { c with x := c.x * c.a, y := c.y * c.a, z := c.z * c.a } else c

/-- The unmultiply branch (lines 1134–1137): RGB is divided by alpha only
when `u_unmultiply_alpha` is set AND alpha is not exactly zero; every division
goes through `checkedDiv`, so a divide-by-zero would surface as `none`. -/
def unmultiplyStep (unmultiplyAlpha : Bool) (c : Color4) : Option Color4 :=
  if unmultiplyAlpha && !(c.a = 0 : Bool) then
    match checkedDiv c.x c.a, checkedDiv c.y c.a, checkedDiv c.z c.a with
    | some nx, some ny, some nz => some { c with x := nx, y := ny, z := nz }
    | _, _, _ => none
  else
    some c

/-! ## Axis reversal of rectangles -/

/-- Reverse a rectangle on the X axis: cover the same horizontal span from
the opposite side (for width 0 this is the rectangle itself). -/
def revRectX (r : Rectangle) : Rectangle :=
  { r with x := r.x + r.width, width := -r.width }

/-- Reverse a rectangle on the Y axis. -/
def revRectY (r : Rectangle) : Rectangle :=
  { r with y := r.y + r.height, height := -r.height }

/-- Apply the X reversal when `fx` and the Y reversal when `fy`. -/
def revRect (fx fy : Bool) (r : Rectangle) : Rectangle :=
  let r1 := if fx then revRectX r else r
  if fy then revRectY r1 else r1

/-! ## Command classification -/

/-- Commands that move pixels, draw, clear, or carry the divided
texture-coordinate scale/offset values: exactly what the early no-op return
of blitColorBufferWithShader must avoid. -/
def blitEffectCmd : Cmd → Bool
  | Cmd.copyTexImage2D .. => true
  | Cmd.copyTexSubImage2D .. => true
  | Cmd.copyTexSubImage3D .. => true
  | Cmd.drawArrays .. => true
  | Cmd.clear .. => true
  | Cmd.uniform2f .. => true
  | _ => false

/-- Program compilation/usage, source-texture state modification, and draw
commands: what copySubTexture must not issue before validating the
destination attachment. -/
def compileModifyOrDrawCmd : Cmd → Bool
  | Cmd.createProgram .. => true
  | Cmd.compileAndAttachShader .. => true
  | Cmd.linkProgram .. => true
  | Cmd.useProgram .. => true
  | Cmd.setSwizzle .. => true
  | Cmd.setMinFilter .. => true
  | Cmd.setMagFilter .. => true
  | Cmd.setBaseLevel .. => true
  | Cmd.drawArrays .. => true
  | _ => false

/-- A copyTexImage2D command (the blit's use of scratch texture 0 as working
storage). -/
def isCopyTexImage2DCmd : Cmd → Bool
  | Cmd.copyTexImage2D .. => true
  | _ => false

/-- A texImage2D reallocating a texture at zero size — the orphaning
command. -/
def isOrphanTexImageCmd : Cmd → Bool
  | Cmd.texImage2D _ _ _ w h _ _ => w = 0 && h = 0
  | _ => false

/-- The layer selected by a framebufferTextureLayer command, if any. -/
def layerOfAttach : Cmd → Option Int
  | Cmd.framebufferTextureLayer _ _ _ _ layer => some layer
  | _ => none

/-- A clear command. -/
def isClearCmd : Cmd → Bool
  | Cmd.clear _ => true
  | _ => false

/-- Commands relevant to attributing clear commands to layers. -/
def layerAttachOrClearCmd (c : Cmd) : Bool :=
  (layerOfAttach c).isSome || isClearCmd c

/-- Layers that receive a clear command in a trace: a
framebufferTextureLayer command selects the current layer, and each clear
command is attributed to the currently attached layer. -/
def clearedLayers : List Cmd → Option Int → List Int
  | [], _ => []
  | c :: rest, cur =>
    match layerOfAttach c with
    | some layer => clearedLayers rest (some layer)
    | none =>
      if isClearCmd c then
        (match cur with | some l => [l] | none => []) ++ clearedLayers rest cur
      else
        clearedLayers rest cur

/-! ## General lemmas about the command lists of the shared helpers -/

theorem attribSetupCmds_all (P : Cmd → Bool)
    (hEn : ∀ n, P (Cmd.enableVertexAttribArray n) = true)
    (hPtr : ∀ n, P (Cmd.vertexAttribPointer n) = true) :
    ∀ n, (attribSetupCmds n).all P = true := by
  intro n
  induction n with
  | zero => rfl
  | succ n ih => simp [attribSetupCmds, List.all_append, ih, hEn, hPtr]

theorem initializeResources_all (P : Cmd → Bool)
    (hGenT : ∀ n, P (Cmd.genTexture n) = true)
    (hGenF : ∀ n, P (Cmd.genFramebuffer n) = true)
    (hGenB : ∀ n, P (Cmd.genBuffer n) = true)
    (hBindB : ∀ n, P (Cmd.bindBuffer n) = true)
    (hBufD : ∀ n, P (Cmd.bufferData n) = true)
    (hGenV : ∀ n, P (Cmd.genVertexArray n) = true)
    (hBindV : ∀ n, P (Cmd.bindVertexArray n) = true)
    (hEn : ∀ n, P (Cmd.enableVertexAttribArray n) = true)
    (hPtr : ∀ n, P (Cmd.vertexAttribPointer n) = true)
    (env : BlitEnv) (s : BlitGLState) :
    ((initializeResources env s).2).all P = true := by
  simp only [initializeResources]
  split_ifs <;>
    simp [List.all_append, hGenT, hGenF, hGenB, hBindB, hBufD, hGenV, hBindV,
      attribSetupCmds_all P hEn hPtr]

theorem initializeResources_no_blitEffect (env : BlitEnv) (s : BlitGLState) :
    ((initializeResources env s).2).all (fun c => !(blitEffectCmd c)) = true :=
  initializeResources_all _ (fun _i1 => rfl) (fun _i2 => rfl) (fun _i3 => rfl)
    (fun _i4 => rfl) (fun _i5 => rfl) (fun _i6 => rfl) (fun _i7 => rfl)
    (fun _i8 => rfl) (fun _i9 => rfl) env s

theorem initializeResources_no_compileModifyOrDraw (env : BlitEnv) (s : BlitGLState) :
    ((initializeResources env s).2).all (fun c => !(compileModifyOrDrawCmd c)) = true :=
  initializeResources_all _ (fun _j1 => rfl) (fun _j2 => rfl) (fun _j3 => rfl)
    (fun _j4 => rfl) (fun _j5 => rfl) (fun _j6 => rfl) (fun _j7 => rfl)
    (fun _j8 => rfl) (fun _j9 => rfl) env s

theorem initializeResources_no_layerAttachOrClear (env : BlitEnv) (s : BlitGLState) :
    ((initializeResources env s).2).all (fun c => !(layerAttachOrClearCmd c)) = true :=
  initializeResources_all _ (fun _k1 => rfl) (fun _k2 => rfl) (fun _k3 => rfl)
    (fun _k4 => rfl) (fun _k5 => rfl) (fun _k6 => rfl) (fun _k7 => rfl)
    (fun _k8 => rfl) (fun _k9 => rfl) env s

theorem getBlitProgram_cmds_all (P : Cmd → Bool)
    (hCreate : ∀ n, P (Cmd.createProgram n) = true)
    (hCompile : ∀ ty src, P (Cmd.compileAndAttachShader ty src) = true)
    (hLink : ∀ n, P (Cmd.linkProgram n) = true)
    (hLoc : ∀ n nm, P (Cmd.getUniformLocation n nm) = true)
    (env : BlitEnv) (t : BlitProgramType) (s : BlitGLState) :
    ((getBlitProgram env t s).2.1).all P = true := by
  cases h : s.cachedProgram t <;>
    simp [getBlitProgram, h, hCreate, hCompile, hLink, hLoc]

theorem SetClearState_cmds_all (P : Cmd → Bool)
    (hCC : P Cmd.setClearColor = true)
    (hCM : ∀ r g b a, P (Cmd.setColorMask r g b a) = true)
    (hDM : ∀ b, P (Cmd.setDepthMask b) = true)
    (hCD : ∀ d, P (Cmd.setClearDepth d) = true)
    (hCS : ∀ v, P (Cmd.setClearStencil v) = true)
    (hSc : ∀ b, P (Cmd.setScissorTestEnabled b) = true)
    (c d st : Bool) :
    ((SetClearState c d st).1).all P = true := by
  cases c <;> cases d <;> cases st <;>
    simp [SetClearState, hCC, hCM, hDM, hCD, hCS, hSc]

/-! ## Rectangle lemmas -/

theorem removeReversal_revRectX (r : Rectangle) :
    (revRectX r).removeReversal = r.removeReversal := by
  rcases r with ⟨x, y, w, h⟩
  simp only [Rectangle.removeReversal, revRectX, Rectangle.mk.injEq]
  refine ⟨?_, ?_, ?_, ?_⟩ <;> first
    | trivial
    | (split_ifs <;> omega)

theorem removeReversal_revRectY (r : Rectangle) :
    (revRectY r).removeReversal = r.removeReversal := by
  rcases r with ⟨x, y, w, h⟩
  simp only [Rectangle.removeReversal, revRectY, Rectangle.mk.injEq]
  refine ⟨?_, ?_, ?_, ?_⟩ <;> first
    | trivial
    | (split_ifs <;> omega)

theorem removeReversal_revRect (fx fy : Bool) (r : Rectangle) :
    (revRect fx fy r).removeReversal = r.removeReversal := by
  cases fx <;> cases fy <;>
    simp [revRect, removeReversal_revRectX, removeReversal_revRectY]

theorem isReversedX_revRectX (r : Rectangle) (h : r.width ≠ 0) :
    (revRectX r).isReversedX = !r.isReversedX := by
  simp only [Rectangle.isReversedX, revRectX]
  by_cases hw : r.width < 0
  · have h2 : ¬(-r.width < 0) := by omega
    simp [hw, h2]
  · have h2 : -r.width < 0 := by omega
    simp [hw, h2]

theorem isReversedY_revRectY (r : Rectangle) (h : r.height ≠ 0) :
    (revRectY r).isReversedY = !r.isReversedY := by
  simp only [Rectangle.isReversedY, revRectY]
  by_cases hw : r.height < 0
  · have h2 : ¬(-r.height < 0) := by omega
    simp [hw, h2]
  · have h2 : -r.height < 0 := by omega
    simp [hw, h2]

theorem isReversedX_revRect (fx fy : Bool) (r : Rectangle) (h : r.width ≠ 0) :
    (revRect fx fy r).isReversedX = (fx != r.isReversedX) := by
  have hY : ∀ q : Rectangle, (revRectY q).isReversedX = q.isReversedX := fun _ => rfl
  cases fx <;> cases fy <;>
    simp [revRect, hY, isReversedX_revRectX r h]

theorem isReversedY_revRect (fx fy : Bool) (r : Rectangle) (h : r.height ≠ 0) :
    (revRect fx fy r).isReversedY = (fy != r.isReversedY) := by
  have hX : ∀ q : Rectangle, (revRectX q).isReversedY = q.isReversedY := fun _ => rfl
  have hXh : ∀ q : Rectangle, (revRectX q).height = q.height := fun _ => rfl
  cases fx <;> cases fy <;>
    simp [revRect, hX, isReversedY_revRectY r h, isReversedY_revRectY (revRectX r) (by simpa [hXh] using h)]

theorem ClipRectangle_some_nonneg (source clip r : Rectangle)
    (h : ClipRectangle source clip = some r) : 0 ≤ r.width ∧ 0 ≤ r.height := by
  simp only [ClipRectangle] at h
  split at h
  · exact absurd h (by simp)
  · rename_i hc
    push_neg at hc
    injection h with h
    subst h
    refine ⟨?_, ?_⟩ <;> simp only <;> omega

/-! ## clearedLayers lemmas -/

theorem clearedLayers_cons_neutral (c : Cmd) (rest : List Cmd) (cur : Option Int)
    (h : layerAttachOrClearCmd c = false) :
    clearedLayers (c :: rest) cur = clearedLayers rest cur := by
  simp only [layerAttachOrClearCmd, Bool.or_eq_false_iff] at h
  obtain ⟨h1, h2⟩ := h
  cases hl : layerOfAttach c with
  | some l => simp [hl] at h1
  | none => simp [clearedLayers, hl, h2]

theorem clearedLayers_append_neutral (l rest : List Cmd) (cur : Option Int)
    (h : l.all (fun c => !(layerAttachOrClearCmd c)) = true) :
    clearedLayers (l ++ rest) cur = clearedLayers rest cur := by
  induction l generalizing cur with
  | nil => rfl
  | cons c l ih =>
    simp only [List.all_cons, Bool.and_eq_true, Bool.not_eq_true'] at h
    rw [List.cons_append, clearedLayers_cons_neutral c _ cur h.1]
    exact ih cur (by simpa using h.2)

/-! ## Claim C3: blit-variant selection in copySubTexture -/

/-- C3: for the component-type pairs accepted by copySubTexture, the variant
chosen by getBlitProgramType is UintToUint whenever the source component type
is unsigned integer, FloatToUint when the source is a float type and the
destination is unsigned integer, and FloatToFloat when both source and
destination are float types. -/
theorem getBlitProgramType_selects (s d : Nat) :
    (s = GL_UNSIGNED_INT → getBlitProgramType s d = BlitProgramType.UINT_TO_UINT)
  ∧ (isFloatComponentType s → d = GL_UNSIGNED_INT →
      getBlitProgramType s d = BlitProgramType.FLOAT_TO_UINT)
  ∧ (isFloatComponentType s → isFloatComponentType d →
      getBlitProgramType s d = BlitProgramType.FLOAT_TO_FLOAT) := by
  refine ⟨fun hs => ?_, fun hs hd => ?_, fun hs hd => ?_⟩
  · simp [getBlitProgramType, hs]
  · simp [getBlitProgramType, hs.1, hd]
  · simp [getBlitProgramType, hs.1, hd.1]

/-- Witness for C3 at the three concrete component-type pairs of the spec's
scenarios. -/
theorem getBlitProgramType_selects_witness :
    getBlitProgramType GL_UNSIGNED_INT GL_UNSIGNED_INT = BlitProgramType.UINT_TO_UINT
  ∧ getBlitProgramType GL_FLOAT GL_UNSIGNED_INT = BlitProgramType.FLOAT_TO_UINT
  ∧ getBlitProgramType GL_FLOAT GL_FLOAT = BlitProgramType.FLOAT_TO_FLOAT :=
  ⟨(getBlitProgramType_selects GL_UNSIGNED_INT GL_UNSIGNED_INT).1 rfl,
   (getBlitProgramType_selects GL_FLOAT GL_UNSIGNED_INT).2.1 (by decide) rfl,
   (getBlitProgramType_selects GL_FLOAT GL_FLOAT).2.2 (by decide) (by decide)⟩

/-! ## Claim C6: the unmultiply-alpha division is guarded against alpha = 0 -/

/-- C6: the fragment shader synthesized for every blit variant contains the
guarded unmultiply block — the division of RGB by alpha runs only under
`u_unmultiply_alpha && color.a != 0.0` — and semantically, for every sampled
color whose alpha is exactly zero, the unmultiply branch leaves the color
unchanged and performs no division. -/
theorem unmultiplyAlpha_guarded :
    (∀ (env : BlitEnv) (t : BlitProgramType),
      ∃ before after, fsSourceChunks env t = before ++ unmultiplyGuardChunk ++ after)
  ∧ (∀ (u : Bool) (c : Color4), c.a = 0 → unmultiplyStep u c = some c) := by
  constructor
  · intro env t
    exact ⟨fsChunksBeforeUnmultiply env t, fsChunksAfterUnmultiply t, rfl⟩
  · intro u c h
    simp [unmultiplyStep, h]

/-- Witness for C6 at a concrete zero-alpha color. -/
theorem unmultiplyAlpha_guarded_witness :
    unmultiplyStep true { x := 1, y := 2, z := 3, a := 0 }
      = some { x := 1, y := 2, z := 3, a := 0 } :=
  unmultiplyAlpha_guarded.2 true { x := 1, y := 2, z := 3, a := 0 } rfl

/-! ## Claim C8: attachment kinds bound for a clear -/

/-- C8 counterexample: a combined depth+stencil format (depthBits = 24,
stencilBits = 8, e.g. GL_DEPTH24_STENCIL8) makes PrepareForClear bind two
distinct attachment kinds simultaneously, contradicting the claimed mutual
exclusivity of the bound attachment kinds. -/
theorem PrepareForClear_two_kinds_for_depth_stencil :
    (PrepareForClear { depthBits := 24, stencilBits := 8 }).1
      = [GL_DEPTH_ATTACHMENT, GL_STENCIL_ATTACHMENT]
  ∧ GL_DEPTH_ATTACHMENT ≠ GL_STENCIL_ATTACHMENT := by
  decide

/-- C8 amended: color is bound exactly when the format has neither depth nor
stencil bits (color is mutually exclusive with the other kinds); depth and
stencil are each bound exactly when their bit count is positive and may be
bound together; and the clear bitmask contains exactly the bits of the bound
attachment kinds. -/
theorem PrepareForClear_attachments_spec (info : InternalFormatInfo) :
    (GL_COLOR_ATTACHMENT0 ∈ (PrepareForClear info).1 ↔
      (info.depthBits = 0 ∧ info.stencilBits = 0))
  ∧ (GL_DEPTH_ATTACHMENT ∈ (PrepareForClear info).1 ↔ 0 < info.depthBits)
  ∧ (GL_STENCIL_ATTACHMENT ∈ (PrepareForClear info).1 ↔ 0 < info.stencilBits)
  ∧ ¬(GL_COLOR_ATTACHMENT0 ∈ (PrepareForClear info).1
      ∧ GL_DEPTH_ATTACHMENT ∈ (PrepareForClear info).1)
  ∧ ¬(GL_COLOR_ATTACHMENT0 ∈ (PrepareForClear info).1
      ∧ GL_STENCIL_ATTACHMENT ∈ (PrepareForClear info).1)
  ∧ (PrepareForClear info).2.1 =
      (if GL_COLOR_ATTACHMENT0 ∈ (PrepareForClear info).1 then GL_COLOR_BUFFER_BIT else 0)
      ||| (if GL_DEPTH_ATTACHMENT ∈ (PrepareForClear info).1 then GL_DEPTH_BUFFER_BIT else 0)
      ||| (if GL_STENCIL_ATTACHMENT ∈ (PrepareForClear info).1 then GL_STENCIL_BUFFER_BIT else 0)
    := by
  rcases info with ⟨d, st⟩
  rcases Nat.eq_zero_or_pos d with hd | hd <;> rcases Nat.eq_zero_or_pos st with hs | hs <;>
    simp [PrepareForClear, SetClearState, hd, hs, Nat.pos_iff_ne_zero, GL_COLOR_ATTACHMENT0,
      GL_DEPTH_ATTACHMENT, GL_STENCIL_ATTACHMENT, GL_COLOR_BUFFER_BIT, GL_DEPTH_BUFFER_BIT,
      GL_STENCIL_BUFFER_BIT] <;>
    omega

/-! ## Concrete sample inputs used by witnesses and counterexamples -/

/-- A concrete device environment. -/
def sampleEnv : BlitEnv :=
  { standard := Standard.es, maxVertexAttribs := 1, hasBindSampler := false,
    hasFramebufferTexture := true, unsizedFormat := fun n => n,
    copyTexImageInternalFormat := fun _ _ => GL_RGBA, contextPixelUnpackBuffer := 0 }

/-- A concrete 8×8 source/destination framebuffer. -/
def sampleFb : FramebufferInfo :=
  { framebufferID := 9, sizeW := 8, sizeH := 8, internalFormat := GL_RGBA,
    implReadFormat := GL_RGBA, implReadType := GL_UNSIGNED_BYTE }

/-- A concrete cached blit program. -/
def sampleProgram : BlitProgram :=
  { program := 7, sourceTextureLocation := 0, scaleLocation := 1, offsetLocation := 2,
    multiplyAlphaLocation := 3, unMultiplyAlphaLocation := 4 }

/-- A concrete engine state with all scratch resources allocated and the
float-to-float program already cached. -/
def sampleStateReady : BlitGLState :=
  { scratchTexture0 := 1, scratchTexture1 := 2, scratchFBO := 3, vertexBuffer := 5, vao := 4,
    programFF := some sampleProgram, programFU := none, programUU := none, nextId := 10 }

/-! ## Claim C1: clipping in blitColorBufferWithShader -/

/-- C1: when the normalized source rectangle clipped against the source
attachment's bounds is empty, blitColorBufferWithShader returns successfully
having issued no copy, draw, clear, or scale/offset-uniform command (the
divisions feeding those uniforms are never reached); and every non-empty
clipped rectangle has non-negative width and height. -/
theorem blitColorBufferWithShader_clip_spec (env : BlitEnv) (source dest : FramebufferInfo)
    (sourceAreaIn destAreaIn : Rectangle) (filter : Nat) (s0 : BlitGLState) :
    (ClipRectangle sourceAreaIn.removeReversal
        { x := 0, y := 0, width := source.sizeW, height := source.sizeH } = none →
      ((blitColorBufferWithShader env source dest sourceAreaIn destAreaIn filter s0).2).all
        (fun c => !(blitEffectCmd c)) = true)
  ∧ (∀ r, ClipRectangle sourceAreaIn.removeReversal
        { x := 0, y := 0, width := source.sizeW, height := source.sizeH } = some r →
      0 ≤ r.width ∧ 0 ≤ r.height) := by
  constructor
  · intro h
    simp only [blitColorBufferWithShader, blitColorBufferWithShaderCore, h]
    simp only [List.all_append, Bool.and_eq_true]
    exact ⟨initializeResources_no_blitEffect env s0,
      getBlitProgram_cmds_all _ (fun _p1 => rfl) (fun _p2 _p3 => rfl) (fun _p4 => rfl)
        (fun _p5 _p6 => rfl) env BlitProgramType.FLOAT_TO_FLOAT _⟩
  · intro r h
    exact ClipRectangle_some_nonneg _ _ _ h

/-- Witness for C1: an out-of-bounds source rectangle short-circuits with no
effectful command, and an in-bounds clip keeps non-negative dimensions. -/
theorem blitColorBufferWithShader_clip_spec_witness :
    (((blitColorBufferWithShader sampleEnv sampleFb sampleFb
        { x := 20, y := 20, width := 4, height := 4 }
        { x := 0, y := 0, width := 4, height := 4 } GL_NEAREST sampleStateReady).2).all
      (fun c => !(blitEffectCmd c)) = true)
  ∧ (0 ≤ ({ x := 2, y := 2, width := 4, height := 4 } : Rectangle).width
      ∧ 0 ≤ ({ x := 2, y := 2, width := 4, height := 4 } : Rectangle).height) :=
  ⟨(blitColorBufferWithShader_clip_spec sampleEnv sampleFb sampleFb
      { x := 20, y := 20, width := 4, height := 4 }
      { x := 0, y := 0, width := 4, height := 4 } GL_NEAREST sampleStateReady).1 (by decide),
   (blitColorBufferWithShader_clip_spec sampleEnv sampleFb sampleFb
      { x := 2, y := 2, width := 4, height := 4 }
      { x := 0, y := 0, width := 4, height := 4 } GL_NEAREST sampleStateReady).2
      { x := 2, y := 2, width := 4, height := 4 } (by decide)⟩

/-! ## Claim C2: reversal flags and reversal invariance -/

theorem bne_bne_cancel (c a b : Bool) : ((c != a) != (c != b)) = (a != b) := by
  cases c <;> cases a <;> cases b <;> rfl

/-- C2: the X (resp. Y) reversal flag of blitColorBufferWithShader is set
exactly when the source and destination rectangles disagree on X (resp. Y)
reversal sense (negative width resp. height); consequently, for rectangles of
non-zero extent and for all four X/Y reversal combinations, blitting the
rectangles reversed on the chosen axes on both source and destination issues
exactly the same device commands — in particular the same texture-coordinate
scale/offset uniforms — as blitting the non-reversed rectangles. -/
theorem blitColorBufferWithShader_reversal_equiv (env : BlitEnv)
    (source dest : FramebufferInfo) (sIn dIn : Rectangle) (filter : Nat) (s0 : BlitGLState)
    (fx fy : Bool) (hsw : sIn.width ≠ 0) (hsh : sIn.height ≠ 0) (hdw : dIn.width ≠ 0)
    (hdh : dIn.height ≠ 0) :
    ((sIn.isReversedX != dIn.isReversedX)
        = (decide (sIn.width < 0) != decide (dIn.width < 0)))
  ∧ ((sIn.isReversedY != dIn.isReversedY)
        = (decide (sIn.height < 0) != decide (dIn.height < 0)))
  ∧ blitColorBufferWithShader env source dest (revRect fx fy sIn) (revRect fx fy dIn) filter s0
      = blitColorBufferWithShader env source dest sIn dIn filter s0 := by
  refine ⟨rfl, rfl, ?_⟩
  unfold blitColorBufferWithShader
  rw [removeReversal_revRect, removeReversal_revRect,
    isReversedX_revRect fx fy sIn hsw, isReversedX_revRect fx fy dIn hdw,
    isReversedY_revRect fx fy sIn hsh, isReversedY_revRect fx fy dIn hdh,
    bne_bne_cancel, bne_bne_cancel]

/-- Witness for C2: the double reversal on both axes of a concrete 4×4 blit
equals the non-reversed blit. -/
theorem blitColorBufferWithShader_reversal_equiv_witness :
    ((({ x := 0, y := 0, width := 4, height := 4 } : Rectangle).isReversedX
        != ({ x := 1, y := 1, width := 3, height := 2 } : Rectangle).isReversedX)
        = (decide (({ x := 0, y := 0, width := 4, height := 4 } : Rectangle).width < 0)
            != decide (({ x := 1, y := 1, width := 3, height := 2 } : Rectangle).width < 0)))
  ∧ ((({ x := 0, y := 0, width := 4, height := 4 } : Rectangle).isReversedY
        != ({ x := 1, y := 1, width := 3, height := 2 } : Rectangle).isReversedY)
        = (decide (({ x := 0, y := 0, width := 4, height := 4 } : Rectangle).height < 0)
            != decide (({ x := 1, y := 1, width := 3, height := 2 } : Rectangle).height < 0)))
  ∧ blitColorBufferWithShader sampleEnv sampleFb sampleFb
      (revRect true true { x := 0, y := 0, width := 4, height := 4 })
      (revRect true true { x := 1, y := 1, width := 3, height := 2 })
      GL_NEAREST sampleStateReady
    = blitColorBufferWithShader sampleEnv sampleFb sampleFb
      { x := 0, y := 0, width := 4, height := 4 }
      { x := 1, y := 1, width := 3, height := 2 } GL_NEAREST sampleStateReady :=
  blitColorBufferWithShader_reversal_equiv sampleEnv sampleFb sampleFb
    { x := 0, y := 0, width := 4, height := 4 } { x := 1, y := 1, width := 3, height := 2 }
    GL_NEAREST sampleStateReady true true (by decide) (by decide) (by decide) (by decide)

/-! ## Claim C4: copySubTexture validates the destination attachment first -/

/-- C4: copySubTexture's command stream starts with the resource
initialization (which compiles no program, modifies no source-texture state
and draws nothing) immediately followed by attaching the destination
level/target to the scratch framebuffer and checking its completeness; when
the framebuffer is incomplete the operation returns the negative-result value
false having issued nothing beyond that attach-and-check, and in every case
the attach-and-check precedes any program, source-state or draw command. -/
theorem copySubTexture_validates_dest_first (env : BlitEnv)
    (sourceTextureID sourceLevel sourceComponentType destTextureID destTarget destLevel
      destComponentType : Nat) (sourceSize : Extents) (sourceArea : Rectangle)
    (destOffset : Offset) (needsLumaWorkaround : Bool) (lumaFormat : Nat)
    (unpackFlipY unpackPremultiplyAlpha unpackUnmultiplyAlpha fbComplete : Bool)
    (s0 : BlitGLState) :
    ((initializeResources env s0).2).all (fun c => !(compileModifyOrDrawCmd c)) = true
  ∧ (∃ rest,
      (copySubTexture env sourceTextureID sourceLevel sourceComponentType destTextureID
        destTarget destLevel destComponentType sourceSize sourceArea destOffset
        needsLumaWorkaround lumaFormat unpackFlipY unpackPremultiplyAlpha
        unpackUnmultiplyAlpha fbComplete s0).2.1
      = (initializeResources env s0).2
        ++ [Cmd.bindFramebuffer GL_FRAMEBUFFER (initializeResources env s0).1.scratchFBO,
            Cmd.framebufferTexture2D GL_FRAMEBUFFER GL_COLOR_ATTACHMENT0 destTarget
              destTextureID (destLevel : Int),
            Cmd.checkFramebufferStatus GL_FRAMEBUFFER] ++ rest)
  ∧ (fbComplete = false →
      (copySubTexture env sourceTextureID sourceLevel sourceComponentType destTextureID
        destTarget destLevel destComponentType sourceSize sourceArea destOffset
        needsLumaWorkaround lumaFormat unpackFlipY unpackPremultiplyAlpha
        unpackUnmultiplyAlpha fbComplete s0).2.1
      = (initializeResources env s0).2
        ++ [Cmd.bindFramebuffer GL_FRAMEBUFFER (initializeResources env s0).1.scratchFBO,
            Cmd.framebufferTexture2D GL_FRAMEBUFFER GL_COLOR_ATTACHMENT0 destTarget
              destTextureID (destLevel : Int),
            Cmd.checkFramebufferStatus GL_FRAMEBUFFER]
      ∧ (copySubTexture env sourceTextureID sourceLevel sourceComponentType destTextureID
          destTarget destLevel destComponentType sourceSize sourceArea destOffset
          needsLumaWorkaround lumaFormat unpackFlipY unpackPremultiplyAlpha
          unpackUnmultiplyAlpha fbComplete s0).2.2 = false) := by
  refine ⟨initializeResources_no_compileModifyOrDraw env s0, ?_, ?_⟩
  · cases hfb : fbComplete
    · exact ⟨[], by simp [copySubTexture, hfb]⟩
    · simp only [copySubTexture, hfb, Bool.not_true, Bool.false_eq_true, if_false,
        List.append_assoc, List.cons_append, List.nil_append]
      exact ⟨_, rfl⟩

  · intro hfb
    constructor
    · simp [copySubTexture, hfb]
    · simp [copySubTexture, hfb]

/-- Witness for C4: concrete incomplete-destination call returns false after
exactly the attach-and-check commands. -/
theorem copySubTexture_validates_dest_first_witness :
    (copySubTexture sampleEnv 11 0 GL_FLOAT 12 GL_TEXTURE_2D 0 GL_FLOAT
        { width := 8, height := 8 } { x := 0, y := 0, width := 4, height := 4 }
        { x := 0, y := 0, z := 0 } false GL_ALPHA false false false false
        sampleStateReady).2.1
      = (initializeResources sampleEnv sampleStateReady).2
        ++ [Cmd.bindFramebuffer GL_FRAMEBUFFER
              (initializeResources sampleEnv sampleStateReady).1.scratchFBO,
            Cmd.framebufferTexture2D GL_FRAMEBUFFER GL_COLOR_ATTACHMENT0 GL_TEXTURE_2D 12
              ((0 : Nat) : Int),
            Cmd.checkFramebufferStatus GL_FRAMEBUFFER]
  ∧ (copySubTexture sampleEnv 11 0 GL_FLOAT 12 GL_TEXTURE_2D 0 GL_FLOAT
        { width := 8, height := 8 } { x := 0, y := 0, width := 4, height := 4 }
        { x := 0, y := 0, z := 0 } false GL_ALPHA false false false false
        sampleStateReady).2.2 = false :=
  (copySubTexture_validates_dest_first sampleEnv 11 0 GL_FLOAT 12 GL_TEXTURE_2D 0 GL_FLOAT
    { width := 8, height := 8 } { x := 0, y := 0, width := 4, height := 4 }
    { x := 0, y := 0, z := 0 } false GL_ALPHA false false false false
    sampleStateReady).2.2 rfl

/-! ## Claim C5: per-layer clear with a caller-specified layer range -/

theorem PrepareForClear_bindTargets_ne_nil (info : InternalFormatInfo) :
    (PrepareForClear info).1 ≠ [] := by
  rcases info with ⟨d, st⟩
  rcases Nat.eq_zero_or_pos d with hd | hd <;> rcases Nat.eq_zero_or_pos st with hs | hs <;>
    simp [PrepareForClear, hd, hs, Nat.pos_iff_ne_zero]

theorem PrepareForClear_cmds_all (P : Cmd → Bool)
    (hCC : P Cmd.setClearColor = true)
    (hCM : ∀ r g b a, P (Cmd.setColorMask r g b a) = true)
    (hDM : ∀ b, P (Cmd.setDepthMask b) = true)
    (hCD : ∀ d, P (Cmd.setClearDepth d) = true)
    (hCS : ∀ v, P (Cmd.setClearStencil v) = true)
    (hSc : ∀ b, P (Cmd.setScissorTestEnabled b) = true)
    (info : InternalFormatInfo) :
    ((PrepareForClear info).2.2).all P = true := by
  simp only [PrepareForClear]
  exact SetClearState_cmds_all P hCC hCM hDM hCD hCS hSc _ _ _

theorem unbindAttachmentsCmds_all (P : Cmd → Bool)
    (h : ∀ t a rb, P (Cmd.framebufferRenderbuffer t a rb) = true) (l : List Nat) :
    (unbindAttachmentsCmds l).all P = true := by
  simp [unbindAttachmentsCmds, List.all_map, List.all_eq_true, Function.comp, h]

theorem clearedLayers_neutral_nil (l : List Cmd) (cur : Option Int)
    (h : l.all (fun c => !(layerAttachOrClearCmd c)) = true) :
    clearedLayers l cur = [] := by
  have := clearedLayers_append_neutral l [] cur h
  simpa using this

theorem clearedLayers_attach_map (texId : Nat) (lvl cl : Int) :
    ∀ (l : List Nat) (rest : List Cmd) (cur : Option Int), l ≠ [] →
    clearedLayers
      ((l.map fun bt => Cmd.framebufferTextureLayer GL_FRAMEBUFFER bt texId lvl cl) ++ rest) cur
      = clearedLayers rest (some cl)
  | [], _, _, hne => absurd rfl hne
  | b :: l, rest, cur, _ => by
    simp only [List.map_cons, List.cons_append]
    have hstep :
        clearedLayers (Cmd.framebufferTextureLayer GL_FRAMEBUFFER b texId lvl cl ::
          ((l.map fun bt => Cmd.framebufferTextureLayer GL_FRAMEBUFFER bt texId lvl cl) ++ rest))
          cur
        = clearedLayers
          ((l.map fun bt => Cmd.framebufferTextureLayer GL_FRAMEBUFFER bt texId lvl cl) ++ rest)
          (some cl) := by
      simp [clearedLayers, layerOfAttach]
    rw [hstep]
    cases l with
    | nil => simp
    | cons b2 l2 =>
      exact clearedLayers_attach_map texId lvl cl (b2 :: l2) rest (some cl) (by simp)

theorem clearedLayers_check_clear (mask : Nat) (rest : List Cmd) (l : Int) :
    clearedLayers (Cmd.checkFramebufferStatus GL_FRAMEBUFFER :: Cmd.clear mask :: rest) (some l)
      = l :: clearedLayers rest (some l) := by
  simp [clearedLayers, layerOfAttach, isClearCmd]

theorem clearedLayers_check_only (rest : List Cmd) (cur : Option Int) :
    clearedLayers (Cmd.checkFramebufferStatus GL_FRAMEBUFFER :: rest) cur
      = clearedLayers rest cur := by
  simp [clearedLayers, layerOfAttach, isClearCmd]

theorem clearLayersLoop_range12 (texId : Nat) (lvl : Int) (bt : List Nat) (mask : Nat)
    (lc : Int → Bool) (hne : bt ≠ []) (tail : List Cmd)
    (htail : tail.all (fun c => !(layerAttachOrClearCmd c)) = true) :
    (clearLayersLoop texId lvl bt mask lc 1 2).2 = (lc 1 && lc 2)
  ∧ clearedLayers ((clearLayersLoop texId lvl bt mask lc 1 2).1 ++ tail) none
      = (if lc 1 then (if lc 2 then [1, 2] else [1]) else []) := by
  have hi : (1 : Int) + 1 = 2 := by norm_num
  have hUnbindAll : ∀ l, (unbindAttachmentsCmds l).all (fun c => !(layerAttachOrClearCmd c)) = true :=
    unbindAttachmentsCmds_all _ (fun _ _ _ => rfl)
  cases h1 : lc 1 <;> cases h2 : lc 2
  · -- first layer incomplete: stop, no clear
    refine ⟨by simp [clearLayersLoop, h1], ?_⟩
    simp only [clearLayersLoop, h1, List.append_assoc, List.cons_append, List.nil_append,
      if_false, Bool.false_eq_true]
    rw [clearedLayers_attach_map texId lvl 1 bt _ none hne, clearedLayers_check_only,
      clearedLayers_neutral_nil _ _ (by simp [List.all_append, hUnbindAll bt, htail])]
  · refine ⟨by simp [clearLayersLoop, h1], ?_⟩
    simp only [clearLayersLoop, h1, List.append_assoc, List.cons_append, List.nil_append,
      if_false, Bool.false_eq_true]
    rw [clearedLayers_attach_map texId lvl 1 bt _ none hne, clearedLayers_check_only,
      clearedLayers_neutral_nil _ _ (by simp [List.all_append, hUnbindAll bt, htail])]
  · -- first complete, second incomplete: layer 1 cleared and kept
    refine ⟨by simp [clearLayersLoop, h1, hi, h2], ?_⟩
    simp only [clearLayersLoop, h1, hi, h2, List.append_assoc, List.cons_append,
      List.nil_append, if_true, if_false, Bool.false_eq_true]
    rw [clearedLayers_attach_map texId lvl 1 bt _ none hne, clearedLayers_check_clear,
      clearedLayers_attach_map texId lvl 2 bt _ (some 1) hne, clearedLayers_check_only,
      clearedLayers_neutral_nil _ _ (by simp [List.all_append, hUnbindAll bt, htail])]
  · -- both layers complete: layers 1 and 2 cleared
    refine ⟨by simp [clearLayersLoop, h1, hi, h2], ?_⟩
    simp only [clearLayersLoop, h1, hi, h2, List.append_assoc, List.cons_append,
      List.nil_append, if_true]
    rw [clearedLayers_attach_map texId lvl 1 bt _ none hne, clearedLayers_check_clear,
      clearedLayers_attach_map texId lvl 2 bt _ (some 1) hne, clearedLayers_check_clear,
      clearedLayers_neutral_nil _ _ htail]

/-- C5: clearing a 3D texture with 4 layers and the caller-specified layer
range first = 1, count = 2 takes the per-layer path; the operation succeeds
exactly when both targeted layers are complete, clear commands are attributed
to exactly layers 1 and 2 when both are complete, to layer 1 alone when layer
2 is the first incomplete one (the earlier clear is not rolled back), and to
no layer when layer 1 is already incomplete. -/
theorem clearRenderableTexture_layer_range_scenario (env : BlitEnv) (texId : Nat) (lvl : Int)
    (formatInfo : InternalFormatInfo) (layerComplete : Int → Bool) (wholeComplete : Bool)
    (s0 : BlitGLState) :
    (clearRenderableTexture env texId GL_TEXTURE_3D formatInfo 4
        { targetEnum := GL_TEXTURE_3D, levelIndex := lvl, layerRange := some (1, 2) }
        layerComplete wholeComplete s0).2.2
      = (layerComplete 1 && layerComplete 2)
  ∧ clearedLayers
      (clearRenderableTexture env texId GL_TEXTURE_3D formatInfo 4
        { targetEnum := GL_TEXTURE_3D, levelIndex := lvl, layerRange := some (1, 2) }
        layerComplete wholeComplete s0).2.1 none
      = (if layerComplete 1 then (if layerComplete 2 then [1, 2] else [1]) else []) := by
  have hpath : useTexImage2DType GL_TEXTURE_3D = false := by decide
  have hne := PrepareForClear_bindTargets_ne_nil formatInfo
  have hInitAll := initializeResources_no_layerAttachOrClear env s0
  have hPrepAll : ((PrepareForClear formatInfo).2.2).all (fun c => !(layerAttachOrClearCmd c)) = true :=
    PrepareForClear_cmds_all _ rfl (fun _q1 _q2 _q3 _q4 => rfl) (fun _q5 => rfl)
      (fun _q6 => rfl) (fun _q7 => rfl) (fun _q8 => rfl) formatInfo
  have hUnbindAll : ∀ l, (unbindAttachmentsCmds l).all (fun c => !(layerAttachOrClearCmd c)) = true :=
    unbindAttachmentsCmds_all _ (fun _ _ _ => rfl)
  have hbase : ∀ X : List Cmd,
      clearedLayers ((initializeResources env s0).2 ++ ((PrepareForClear formatInfo).2.2 ++
        (Cmd.bindFramebuffer GL_FRAMEBUFFER (initializeResources env s0).1.scratchFBO :: X)))
        none = clearedLayers X none := by
    intro X
    rw [clearedLayers_append_neutral _ _ _ hInitAll,
        clearedLayers_append_neutral _ _ _ hPrepAll,
        clearedLayers_cons_neutral
          (Cmd.bindFramebuffer GL_FRAMEBUFFER (initializeResources env s0).1.scratchFBO)
          X none rfl]
  have key0 := clearLayersLoop_range12 texId lvl (PrepareForClear formatInfo).1
    (PrepareForClear formatInfo).2.1 layerComplete hne [] rfl
  have keyU := clearLayersLoop_range12 texId lvl (PrepareForClear formatInfo).1
    (PrepareForClear formatInfo).2.1 layerComplete hne
    (unbindAttachmentsCmds (PrepareForClear formatInfo).1)
    (hUnbindAll (PrepareForClear formatInfo).1)
  have hfuel : ((2 : Int)).toNat = 2 := rfl
  constructor
  · simp only [clearRenderableTexture, hpath, Bool.false_eq_true, if_false,
      Option.isSome_some, Bool.not_true, Bool.and_false, hfuel]
    cases hres : (clearLayersLoop texId lvl (PrepareForClear formatInfo).1
        (PrepareForClear formatInfo).2.1 layerComplete 1 2).2
    · simp only [hres, Bool.false_eq_true, if_false]
      rw [← key0.1, hres]
    · simp only [hres, if_true]
      rw [← keyU.1, hres]
  · simp only [clearRenderableTexture, hpath, Bool.false_eq_true, if_false,
      Option.isSome_some, Bool.not_true, Bool.and_false, hfuel]
    cases hres : (clearLayersLoop texId lvl (PrepareForClear formatInfo).1
        (PrepareForClear formatInfo).2.1 layerComplete 1 2).2
    · simp only [hres, Bool.false_eq_true, if_false, List.append_assoc, List.cons_append,
        List.nil_append]
      rw [hbase]
      have := key0.2
      rw [List.append_nil] at this
      exact this
    · simp only [hres, if_true, List.append_assoc, List.cons_append, List.nil_append]
      rw [hbase]
      exact keyU.2

/-! ## Claim C7: what the scoped guard reverts -/

/-- A concrete prior device state with non-neutral settings. -/
def sampleDeviceState : DeviceState :=
  { scissorTestEnabled := true, viewport := { x := 5, y := 5, width := 2, height := 2 },
    depthRange := (0, 1), blendEnabled := true, colorMask := (true, false, true, false),
    sampleAlphaToCoverageEnabled := true, sampleCoverageEnabled := true,
    depthTestEnabled := true, stencilTestEnabled := true, cullFaceEnabled := true,
    polygonOffsetFillEnabled := true, rasterizerDiscardEnabled := true,
    transformFeedbackPaused := false, queriesActive := true, pausedQueries := false }

/-- C7 counterexample: a concrete blit operation (which opens and closes the
guard) leaves blending disabled on return even though it was enabled before,
so the guard's state changes are not fully reverted to their prior values. -/
theorem scopedGLState_not_fully_reverted :
    (runCmds sampleDeviceState
      (blitColorBufferWithShader sampleEnv sampleFb sampleFb
        { x := 0, y := 0, width := 4, height := 4 } { x := 0, y := 0, width := 4, height := 4 }
        GL_NEAREST sampleStateReady).2).blendEnabled = false
  ∧ sampleDeviceState.blendEnabled = true := by
  constructor
  · decide
  · rfl

/-- C7 amended: of all the state the guard touches, only the query pause is
reverted when it closes — the caller's queries are running again exactly as
before; every other setting (scissor unless preserved, viewport, depth range,
blend, color mask, per-fragment tests, culling, polygon offset, rasterizer
discard, transform-feedback pause) is left in the guard's neutral
configuration rather than restored. -/
theorem scopedGLState_restores_queries_only (vp : Rectangle) (keep : Bool) (s : DeviceState) :
    (runCmds s (scopedGLStateOpen vp keep ++ scopedGLStateClose)).queriesActive
        = s.queriesActive
  ∧ (runCmds s (scopedGLStateOpen vp keep ++ scopedGLStateClose)).pausedQueries = false
  ∧ (runCmds s (scopedGLStateOpen vp keep ++ scopedGLStateClose)).viewport = vp
  ∧ (runCmds s (scopedGLStateOpen vp keep ++ scopedGLStateClose)).depthRange = (0, 1)
  ∧ (runCmds s (scopedGLStateOpen vp keep ++ scopedGLStateClose)).blendEnabled = false
  ∧ (runCmds s (scopedGLStateOpen vp keep ++ scopedGLStateClose)).colorMask
        = (true, true, true, true)
  ∧ (runCmds s (scopedGLStateOpen vp keep ++ scopedGLStateClose)).sampleAlphaToCoverageEnabled
        = false
  ∧ (runCmds s (scopedGLStateOpen vp keep ++ scopedGLStateClose)).sampleCoverageEnabled = false
  ∧ (runCmds s (scopedGLStateOpen vp keep ++ scopedGLStateClose)).depthTestEnabled = false
  ∧ (runCmds s (scopedGLStateOpen vp keep ++ scopedGLStateClose)).stencilTestEnabled = false
  ∧ (runCmds s (scopedGLStateOpen vp keep ++ scopedGLStateClose)).cullFaceEnabled = false
  ∧ (runCmds s (scopedGLStateOpen vp keep ++ scopedGLStateClose)).polygonOffsetFillEnabled
        = false
  ∧ (runCmds s (scopedGLStateOpen vp keep ++ scopedGLStateClose)).rasterizerDiscardEnabled
        = false
  ∧ (runCmds s (scopedGLStateOpen vp keep ++ scopedGLStateClose)).transformFeedbackPaused
        = true
  ∧ (runCmds s (scopedGLStateOpen vp keep ++ scopedGLStateClose)).scissorTestEnabled
        = (if keep then s.scissorTestEnabled else false) := by
  cases keep <;>
    simp [runCmds, scopedGLStateOpen, scopedGLStateClose, applyCmd, List.foldl]

/-! ## Claim C9: scratch-texture orphaning -/

/-- C9 counterexample: a concrete in-bounds blitColorBufferWithShader uses
scratch texture 0 as working storage (it issues a copyTexImage2D into it) yet
its command stream contains no zero-size texImage2D, i.e. the scratch
textures are not orphaned before the operation returns. -/
theorem blitColorBufferWithShader_does_not_orphan :
    ((blitColorBufferWithShader sampleEnv sampleFb sampleFb
        { x := 0, y := 0, width := 4, height := 4 } { x := 0, y := 0, width := 4, height := 4 }
        GL_NEAREST sampleStateReady).2).any isCopyTexImage2DCmd = true
  ∧ ((blitColorBufferWithShader sampleEnv sampleFb sampleFb
        { x := 0, y := 0, width := 4, height := 4 } { x := 0, y := 0, width := 4, height := 4 }
        GL_NEAREST sampleStateReady).2).any isOrphanTexImageCmd = false := by
  constructor
  · decide
  · decide

/-- C9 amended: the LUMA-workaround sub-image copy orphans both scratch
textures (reallocating each at zero size) immediately before returning, with
only the guard's query-resume following; blitColorBufferWithShader, although
it uses scratch texture 0 as working storage, returns without orphaning. -/
theorem copySubImageToLUMAWorkaroundTexture_orphans (env : BlitEnv) (texture : Nat)
    (textureTypeEnum targetEnum lumaFormat : Nat) (level : Nat) (destOffset : Offset)
    (sourceArea : Rectangle) (source : FramebufferInfo) (s0 : BlitGLState) :
    ∃ leading,
      (copySubImageToLUMAWorkaroundTexture env texture textureTypeEnum targetEnum lumaFormat
        level destOffset sourceArea source s0).2
      = leading
        ++ (orphanScratchTexturesCmds
            (copySubImageToLUMAWorkaroundTexture env texture textureTypeEnum targetEnum
              lumaFormat level destOffset sourceArea source s0).1
          ++ scopedGLStateClose) := by
  simp only [copySubImageToLUMAWorkaroundTexture]
  rw [List.append_assoc]
  exact ⟨_, rfl⟩

/-! ## Claim C10: copyImageToLUMAWorkaroundTexture refines allocate-then-copy -/

/-- C10: copyImageToLUMAWorkaroundTexture issues exactly the destination
allocation (bind destination, reset unpack state, texImage2D at the
source-area dimensions with the framebuffer's implementation read type)
followed by precisely the command sequence of
copySubImageToLUMAWorkaroundTexture at destination offset (0, 0, 0), with the
same resulting engine state. -/
theorem copyImageToLUMAWorkaroundTexture_refines (env : BlitEnv) (texture : Nat)
    (textureTypeEnum targetEnum lumaFormat : Nat) (level : Nat) (sourceArea : Rectangle)
    (internalFormat : Nat) (source : FramebufferInfo) (s0 : BlitGLState) :
    copyImageToLUMAWorkaroundTexture env texture textureTypeEnum targetEnum lumaFormat level
      sourceArea internalFormat source s0
    = lumaAllocThenCopySubImage env texture textureTypeEnum targetEnum lumaFormat level
      sourceArea internalFormat source s0 := rfl

end BlitGL
